import Mathlib

/-!
Verification of the Jobify multi-source job-search aggregator.

Shallow embedding of the aggregator core:
- `src/src/agents/job_searcher.py` (`JobSearcherAgent.search_jobs`,
  `JobSearcherAgent._process_france_travail_results`),
- `src/src/utils/api_clients.py` (`FranceTravailClient`, `IndeedClient`,
  `GlassdoorClient`),
- `src/src/models/job.py` (the data model).

Python strings are modelled as `List Char` (name `PyStr`) so that every string
operation the code performs (lower-casing, replace, strip, lexicographic
comparison, substring test) is an executable structural recursion.  Case
folding is ASCII (the code's inputs of interest are ASCII keywords).
JSON payloads from the external APIs are modelled by the inductive `JVal`;
`dict.get(key, default)` becomes `JVal.getD`, which fails (Python
`AttributeError`) when the receiver is not an object, exactly where the
Python code would raise.  JSON string-typed fields are read back with
`JVal.jstr` / `JVal.jstrOpt`.
-/

namespace Jobify

/-- Python strings, as lists of characters. -/
abbrev PyStr := List Char

/-- Lexicographic `<=` on strings by Unicode code point, as Python compares
`str` values. -/
def lexLe : PyStr → PyStr → Bool
  | [], _ => true
  | _ :: _, [] => false
  | a :: as, b :: bs =>
    if a.toNat < b.toNat then true
    else if b.toNat < a.toNat then false
    else lexLe as bs

/-- ASCII lower-casing of one character (Python `str.lower` restricted to
ASCII). -/
def pyLowerChar (c : Char) : Char :=
  if 65 ≤ c.toNat ∧ c.toNat ≤ 90 then Char.ofNat (c.toNat + 32) else c

/-- Python `str.lower` (ASCII). -/
def pyLower (s : PyStr) : PyStr := s.map pyLowerChar

/-- Whitespace recognized by Python `str.strip`. -/
def isPySpace (c : Char) : Bool :=
  c = ' ' || c = '\t' || c = '\n' || c = '\r'

/-- Python `str.strip()`: drop leading and trailing whitespace. -/
def pyStrip (s : PyStr) : PyStr :=
  ((s.dropWhile isPySpace).reverse.dropWhile isPySpace).reverse

/-- `pat` is a prefix of `s`. -/
def isPrefixCL : PyStr → PyStr → Bool
  | [], _ => true
  | _ :: _, [] => false
  | a :: as, b :: bs => a = b && isPrefixCL as bs

/-- Python `pat in s` (substring test). -/
def hasSubstr (pat : PyStr) : PyStr → Bool
  | [] => isPrefixCL pat []
  | c :: t => isPrefixCL pat (c :: t) || hasSubstr pat t

/-- Python `s.replace(pat, repl)`: replace every non-overlapping occurrence,
left to right.  (The code only calls it with non-empty `pat`; for an empty
`pat` we return `s` unchanged.) -/
def pyReplace (pat repl : PyStr) : PyStr → PyStr
  | [] => []
  | c :: rest =>
    match pat with
    | [] => c :: rest
    | p :: ps =>
      if isPrefixCL (p :: ps) (c :: rest) then
        repl ++ pyReplace pat repl (rest.drop ps.length)
      else
        c :: pyReplace pat repl rest
termination_by s => s.length
decreasing_by
  · simp [List.length_drop]; omega
  · simp

/-- Python `s.isdigit()` for ASCII digits (true on non-empty all-digit
strings). -/
def pyIsDigit (s : PyStr) : Bool :=
  !s.isEmpty && s.all Char.isDigit

/-- Decimal rendering of a natural number. -/
def natToPyStr (n : Nat) : PyStr := Nat.toDigits 10 n

/-- Python `str(i)` / f-string rendering of an `int`. -/
def intToPyStr (i : Int) : PyStr :=
  if i < 0 then '-' :: natToPyStr (-i).toNat else natToPyStr i.toNat

/-! ## JSON values (the raw payloads of the external APIs) -/

/-- A JSON value as Python's `json` module decodes it. -/
inductive JVal where
  | null : JVal
  | str (s : PyStr) : JVal
  | num (n : Int) : JVal
  | arr (items : List JVal) : JVal
  | obj (fields : List (PyStr × JVal)) : JVal

/-- Python `d.get(key, default)`.  Returns the stored value (even when it is
`null`) when the key is present, the default when it is absent, and fails —
as the Python attribute access would — when the receiver is not a dict. -/
def JVal.getD (v : JVal) (key : PyStr) (dflt : JVal) : Except PyStr JVal :=
  match v with
  | .obj fields =>
    .ok (((fields.find? (fun p => p.1 = key)).map Prod.snd).getD dflt)
  | _ => .error "AttributeError: get on a non-dict value".toList

/-- Read back a string-typed JSON field (the fields the code stores into
`str`-typed slots). -/
def JVal.jstr : JVal → PyStr
  | .str s => s
  | _ => []

/-- Read back an optional string-typed JSON field (`null` ↦ `None`). -/
def JVal.jstrOpt : JVal → Option PyStr
  | .str s => some s
  | _ => none

/-- Python `str(v)` on the scalar JSON values the code passes through it. -/
def JVal.pyToStr : JVal → PyStr
  | .str s => s
  | .num n => intToPyStr n
  | .null => "None".toList
  | _ => []

/-! ## Data model (`src/src/models/job.py`) -/

/-- `JobSource` (`job.py`, lines 8-13). -/
inductive JobSource where
  | france_travail
  | linkedin
  | indeed
  | glassdoor
deriving DecidableEq

/-- The `.value` of each `JobSource` enum member. -/
def JobSource.value : JobSource → PyStr
  | .france_travail => "france_travail".toList
  | .linkedin => "linkedin".toList
  | .indeed => "indeed".toList
  | .glassdoor => "glassdoor".toList

/-- `Location` (`job.py`, lines 16-45). -/
structure Location where
  city : PyStr
  postal_code : Option PyStr
  region : Option PyStr
  country : PyStr
  formatted_address : PyStr

/-- `JobPosting` (`job.py`, lines 48-85).  `posted_date` is `Option PyStr`
because clients may store `None` there; the constructor's
`required_skills or []` defaulting is applied at each construction site. -/
structure JobPosting where
  job_id : PyStr
  title : PyStr
  company : PyStr
  location : Location
  description : PyStr
  url : PyStr
  posted_date : Option PyStr
  salary_range : Option PyStr
  job_type : Option PyStr
  required_skills : List PyStr
  required_experience : Option PyStr
  required_education : Option PyStr
  source : JobSource
  raw_data : Option JVal

/-- `JobSearchRequest` (`job.py`, lines 88-105); `cv_data` is irrelevant to
the aggregator and omitted. -/
structure JobSearchRequest where
  job_title : PyStr
  location : Option PyStr
  radius : Int
  keywords : List PyStr
  limit_per_source : Int

/-- `JobSearchResponse` (`job.py`, lines 108-123). -/
structure JobSearchResponse where
  query : JobSearchRequest
  results : List JobPosting
  available_sources : List PyStr
  failed_sources : List PyStr
  total_count : Nat

/-! ## France Travail client (`api_clients.py`, `FranceTravailClient`) -/

/-- The `contract_keywords` dict of `FranceTravailClient.search_jobs`
(lines 182-190), in insertion order. -/
def contractKeywords : List (PyStr × PyStr) :=
  [("Stage".toList, "STG".toList),
   ("Alternance".toList, "ALT".toList),
   ("CDD".toList, "CDD".toList),
   ("CDI".toList, "CDI".toList),
   ("Intérim".toList, "MIS".toList),
   ("Freelance".toList, "LIB".toList),
   ("Saisonnier".toList, "SAI".toList)]

/-- The first contract-type keyword occurring (case-insensitively) in the
title, scanning `contractKeywords` in order (the loop at lines 193-200). -/
def firstContractKeyword (job_title : PyStr) : Option (PyStr × PyStr) :=
  contractKeywords.find? (fun kc => hasSubstr (pyLower kc.1) (pyLower job_title))

/-- The `motsCles` France Travail query text computed from the job title when
no LLM-preprocessed keywords are supplied (lines 177-204): remove the first
detected contract-type keyword from the lower-cased title, then remove the
word "technique", stripping whitespace after each removal. -/
def motsClesFromTitle (job_title : PyStr) : PyStr :=
  let job_title_clean :=
    match firstContractKeyword job_title with
    | some kc => pyStrip (pyReplace (pyLower kc.1) [] (pyLower job_title))
    | none => job_title
  pyStrip (pyReplace "technique".toList [] job_title_clean)

/-- The contract-type code detected in the title (stored but, per the
commented-out block at lines 218-221, never sent to the API). -/
def detectedContractType (job_title : PyStr) : Option PyStr :=
  (firstContractKeyword job_title).map Prod.snd

/-- One position of the regex `(?<!\d)(\d{5})(?!\d)`: the next five characters
are digits and the sixth (when present) is not. -/
def fiveDigitsHere : PyStr → Option PyStr
  | a :: b :: c :: d :: e :: rest =>
    if [a, b, c, d, e].all Char.isDigit &&
        (match rest with | [] => true | x :: _ => !x.isDigit) then
      some [a, b, c, d, e]
    else none
  | _ => none

/-- `re.search(r'(?<!\d)(\d{5})(?!\d)', location)`: the leftmost position
whose previous character is not a digit and which starts a five-digit run not
followed by a digit. -/
def findPostalCode (prevIsDigit : Bool) : PyStr → Option PyStr
  | [] => none
  | c :: t =>
    match if prevIsDigit then none else fiveDigitsHere (c :: t) with
    | some ds => some ds
    | none => findPostalCode c.isDigit t

/-- The `dept_codes` city table (lines 244-252), in insertion order. -/
def deptCodes : List (PyStr × PyStr) :=
  [("paris".toList, "75".toList),
   ("lyon".toList, "69".toList),
   ("marseille".toList, "13".toList),
   ("toulouse".toList, "31".toList),
   ("nice".toList, "06".toList),
   ("bordeaux".toList, "33".toList),
   ("lille".toList, "59".toList)]

/-- The location-to-department resolution of
`FranceTravailClient.search_jobs` (lines 224-260), applied when `location`
is non-empty: a five-digit postal code anywhere in the string yields its
first two digits; an exact two-digit numeric string is used directly; a
known city name (case-insensitive) maps through `deptCodes`; otherwise the
default department "75". -/
def resolveDepartement (location : PyStr) : PyStr :=
  match findPostalCode false location with
  | some postal => postal.take 2
  | none =>
    if location.length = 2 && pyIsDigit location then location
    else
      match (deptCodes.find? (fun p => p.1 = pyLower location)).map Prod.snd with
      | some code => code
      | none => "75".toList

/-- The query parameters the France Travail client sends to
`/offres/search`. -/
structure FTParams where
  motsCles : PyStr
  range : PyStr
  departement : Option PyStr

/-- Construction of the France Travail search parameters (lines 171-271).
`keywords` (the CV skills) are accepted but — per the commented-out block at
lines 262-271 — only logged, never added to the query. -/
def ftBuildParams (job_title : PyStr) (location : Option PyStr) (limit : Int)
    (keywords : List PyStr) (job_keywords : Option PyStr) : FTParams :=
  let _ := keywords
  let motsCles :=
    match job_keywords with
    | some k => k
    | none => motsClesFromTitle job_title
  let base : FTParams :=
    { motsCles := motsCles
      range := "0-".toList ++ intToPyStr (limit - 1)
      departement := none }
  match location with
  | some loc => if loc.isEmpty then base else { base with departement := some (resolveDepartement loc) }
  | none => base

/-! ### Authentication and the one-shot refresh-and-retry (lines 71-145 and
279-308) -/

/-- The credential configuration of a `FranceTravailClient` (environment
variables read in `__init__`). -/
structure FTConfig where
  client_id : Option PyStr
  client_secret : Option PyStr
  api_key : Option PyStr

/-- Outcome of `_get_access_token` (lines 71-125): with both OAuth
credentials present it performs one POST to the token endpoint, whose
outcome `endpointResult` is `some token` on a 200 response carrying a token
and `none` otherwise; without them it returns `none` and performs no call.
Returns (token, number of token-endpoint calls). -/
def getAccessToken (cfg : FTConfig) (endpointResult : Option PyStr) :
    Option PyStr × Nat :=
  match cfg.client_id, cfg.client_secret with
  | some _, some _ => (endpointResult, 1)
  | _, _ => (none, 0)

/-- `_get_auth_token` (lines 127-145) given the cached `access_token` and
whether its recorded expiry is still in the future.  Returns
(auth token, new cached access_token, token-endpoint calls). -/
def getAuthToken (cfg : FTConfig) (cached : Option PyStr) (cachedValid : Bool)
    (endpointResult : Option PyStr) : Option PyStr × Option PyStr × Nat :=
  if cfg.api_key.isSome then (cfg.api_key, cached, 0)
  else if cached.isSome && cachedValid then (cached, cached, 0)
  else
    match getAccessToken cfg endpointResult with
    | (some t, n) => (some t, some t, n)
    | (none, n) => (none, cached, n)

/-- Observable trace of one `FranceTravailClient.search_jobs` call at the
HTTP level. -/
structure FTSearchTrace where
  result : Except PyStr Unit
  initTokenCalls : Nat
  refreshTokenCalls : Nat
  httpGets : Nat

/-- The authentication / retry skeleton of `FranceTravailClient.search_jobs`
(lines 164-169 and 279-308).  `tokInit` and `tokRefresh` are the outcomes of
the first and (if made) second token-endpoint call; `status1` and `status2`
the statuses of the first and (if made) second GET of `/offres/search`.
`result = .ok ()` means the call proceeds to parse the body. -/
def ftSearchFlow (cfg : FTConfig) (cached : Option PyStr) (cachedValid : Bool)
    (tokInit tokRefresh : Option PyStr) (status1 status2 : Nat) :
    FTSearchTrace :=
  match getAuthToken cfg cached cachedValid tokInit with
  | (none, _, n1) =>
    { result := .error "Authentification France Travail non configurée. Impossible deffectuer la recherche.".toList
      initTokenCalls := n1, refreshTokenCalls := 0, httpGets := 0 }
  | (some _, cached1, n1) =>
    if status1 = 401 then
      if cfg.client_id.isSome && cfg.client_secret.isSome && cached1.isSome then
        match getAuthToken cfg none false tokRefresh with
        | (some _, _, n2) =>
          if status2 = 200 ∨ status2 = 206 then
            { result := .ok (), initTokenCalls := n1, refreshTokenCalls := n2, httpGets := 2 }
          else
            { result := .error "Erreur dauthentification avec lAPI France Travail: Clé API invalide (code 401)".toList
              initTokenCalls := n1, refreshTokenCalls := n2, httpGets := 2 }
        | (none, _, n2) =>
          { result := .error "Erreur lors de la recherche sur France Travail: 401".toList
            initTokenCalls := n1, refreshTokenCalls := n2, httpGets := 1 }
      else
        { result := .error "Erreur dauthentification avec lAPI France Travail: Clé API invalide (code 401)".toList
          initTokenCalls := n1, refreshTokenCalls := 0, httpGets := 1 }
    else if status1 = 200 ∨ status1 = 206 then
      { result := .ok (), initTokenCalls := n1, refreshTokenCalls := 0, httpGets := 1 }
    else
      { result := .error "Erreur lors de la recherche sur France Travail".toList
        initTokenCalls := n1, refreshTokenCalls := 0, httpGets := 1 }

/-! ## France Travail result normalization
(`JobSearcherAgent._process_france_travail_results`, `job_searcher.py`
lines 220-289) -/

/-- Normalization of one raw France Travail record (the body of the `try`
at lines 233-284).  Every nested sub-field is read with a default-valued
`get`; the computation fails — and only fails — where the Python code would
raise (a `get` on a non-dict, or iterating a non-list `competences`). -/
def normalizeFranceTravailJob (job : JVal) : Except PyStr JobPosting := do
  let idv ← job.getD "id".toList (.str [])
  let titlev ← job.getD "intitule".toList (.str [])
  let entreprisev ← job.getD "entreprise".toList (.obj [])
  let companyv ← entreprisev.getD "nom".toList (.str "Non spécifié".toList)
  let descriptionv ← job.getD "description".toList (.str [])
  let originev ← job.getD "origineOffre".toList (.obj [])
  let urlv ← originev.getD "urlOrigine".toList (.str "https://www.francetravail.fr/".toList)
  let datev ← job.getD "dateCreation".toList (.str [])
  let lieuv ← job.getD "lieuTravail".toList (.obj [])
  let cityv ← lieuv.getD "libelle".toList (.str [])
  let postalv ← lieuv.getD "codePostal".toList (.str [])
  let city := cityv.jstr
  let postal_code := postalv.jstr
  let location : Location :=
    { city := city
      postal_code := some postal_code
      region := some []
      country := "France".toList
      formatted_address := city ++ ", ".toList ++ postal_code ++ ", France".toList }
  let competencesv ← job.getD "competences".toList (.arr [])
  let skills ← match competencesv with
    | .arr comps => comps.mapM (fun comp => do
        let l ← comp.getD "libelle".toList (.str [])
        pure l.jstr)
    | _ => Except.error "TypeError: competences is not iterable over dicts".toList
  let contractv ← job.getD "typeContrat".toList (.str [])
  let salairev ← job.getD "salaire".toList (.obj [])
  let salaryv ← salairev.getD "libelle".toList (.str [])
  let expv ← job.getD "experienceExige".toList (.str [])
  let eduv ← job.getD "formationExige".toList (.str [])
  pure
    { job_id := idv.jstr
      title := titlev.jstr
      company := companyv.jstr
      location := location
      description := descriptionv.jstr
      url := urlv.jstr
      posted_date := datev.jstrOpt
      salary_range := some salaryv.jstr
      job_type := some contractv.jstr
      required_skills := skills
      required_experience := some expv.jstr
      required_education := some eduv.jstr
      source := .france_travail
      raw_data := some job }

/-- `_process_france_travail_results`: normalize each record, dropping —
with a logged error — any record whose normalization raises, and keeping
every other record of the batch. -/
def processFranceTravailResults : List JVal → List JobPosting
  | [] => []
  | job :: rest =>
    match normalizeFranceTravailJob job with
    | .ok p => p :: processFranceTravailResults rest
    | .error _ => processFranceTravailResults rest

/-! ## Indeed and Glassdoor clients (`api_clients.py`, lines 460-656).
Both gate on `status != 200` and build postings from the JSON body;
`today` stands for `datetime.now().strftime("%Y-%m-%d")`. -/

/-- Python `s.split(",")[0].strip() if "," in s else s`. -/
def cityOfLocationStr (s : PyStr) : PyStr :=
  if hasSubstr ",".toList s then pyStrip (s.takeWhile (fun c => c ≠ ',')) else s

/-- Python `s.split(",")[-1].strip() if "," in s else "France"`. -/
def countryOfLocationStr (s : PyStr) : PyStr :=
  if hasSubstr ",".toList s then pyStrip ((s.reverse.takeWhile (fun c => c ≠ ',')).reverse)
  else "France".toList

/-- Normalization of one Indeed record (lines 521-554); unlike the France
Travail path there is no per-record `try`, so a failure aborts the whole
client call. -/
def indeedNormalizeJob (today : PyStr) (job : JVal) : Except PyStr JobPosting := do
  let locv ← job.getD "formattedLocation".toList (.str [])
  let location_str := locv.jstr
  let idv ← job.getD "jobkey".toList (.str [])
  let titlev ← job.getD "jobtitle".toList (.str [])
  let companyv ← job.getD "company".toList (.str [])
  let snippetv ← job.getD "snippet".toList (.str [])
  let urlv ← job.getD "url".toList (.str [])
  let datev ← job.getD "date".toList (.str today)
  pure
    { job_id := idv.jstr
      title := titlev.jstr
      company := companyv.jstr
      location :=
        { city := cityOfLocationStr location_str
          postal_code := none
          region := none
          country := countryOfLocationStr location_str
          formatted_address := location_str }
      description := snippetv.jstr
      url := urlv.jstr
      posted_date := datev.jstrOpt
      salary_range := none
      job_type := none
      required_skills := []
      required_experience := none
      required_education := none
      source := .indeed
      raw_data := some job }

/-- `IndeedClient.search_jobs` from the HTTP response on (lines 508-556):
any status other than 200 — including 206 — raises; otherwise the records
under `"results"` are normalized. -/
def indeedSearchJobs (today : PyStr) (status : Nat) (body : JVal) :
    Except PyStr (List JobPosting) := do
  if status ≠ 200 then
    throw ("Erreur lors de la recherche sur Indeed: ".toList ++ natToPyStr status)
  else
    let resultsv ← body.getD "results".toList (.arr [])
    match resultsv with
    | .arr jobs => jobs.mapM (indeedNormalizeJob today)
    | _ => Except.error "TypeError: results is not iterable over dicts".toList

/-- Normalization of one Glassdoor record (lines 621-654); `posted_date` is
always fabricated from the current date. -/
def glassdoorNormalizeJob (today : PyStr) (job : JVal) : Except PyStr JobPosting := do
  let locv ← job.getD "location".toList (.str [])
  let location_str := locv.jstr
  let idv ← job.getD "jobListingId".toList (.str [])
  let titlev ← job.getD "jobTitle".toList (.str [])
  let employerv ← job.getD "employer".toList (.obj [])
  let companyv ← employerv.getD "name".toList (.str [])
  let descv ← job.getD "jobDescription".toList (.str [])
  let urlv ← job.getD "jobViewUrl".toList (.str [])
  pure
    { job_id := idv.pyToStr
      title := titlev.jstr
      company := companyv.jstr
      location :=
        { city := cityOfLocationStr location_str
          postal_code := none
          region := none
          country := "France".toList
          formatted_address := location_str }
      description := descv.jstr
      url := urlv.jstr
      posted_date := some today
      salary_range := none
      job_type := none
      required_skills := []
      required_experience := none
      required_education := none
      source := .glassdoor
      raw_data := some job }

/-- `GlassdoorClient.search_jobs` from the HTTP response on (lines 607-656):
any status other than 200 — including 206 — raises; otherwise the records
under `response.jobListings` are normalized. -/
def glassdoorSearchJobs (today : PyStr) (status : Nat) (body : JVal) :
    Except PyStr (List JobPosting) := do
  if status ≠ 200 then
    throw ("Erreur lors de la recherche sur Glassdoor: ".toList ++ natToPyStr status)
  else
    let responsev ← body.getD "response".toList (.obj [])
    let listingsv ← responsev.getD "jobListings".toList (.arr [])
    match listingsv with
    | .arr jobs => jobs.mapM (glassdoorNormalizeJob today)
    | _ => Except.error "TypeError: jobListings is not iterable over dicts".toList

/-! ## The aggregator (`JobSearcherAgent.search_jobs`, `job_searcher.py`
lines 129-191) -/

/-- What a source task (`_search_on_source` plus the client call) returns on
success: the France Travail client returns raw JSON records, every other
client returns already-built `JobPosting` values. -/
inductive SourceRaw where
  | ftRaw (records : List JVal)
  | posts (ps : List JobPosting)

/-- The per-source post-processing branch of the fan-in loop (lines
164-168): France Travail results go through
`processFranceTravailResults`, other sources' results are used as they
are.  (The two shape-mismatch branches cannot occur: the France Travail
client only produces `ftRaw` payloads and the other clients only
`posts` payloads.) -/
def processedOf (source : JobSource) (raw : SourceRaw) : List JobPosting :=
  if source = JobSource.france_travail then
    match raw with
    | .ftRaw records => processFranceTravailResults records
    | .posts _ => []
  else
    match raw with
    | .posts ps => ps
    | .ftRaw _ => []

/-- The sources whose configured client is not `None` (line 143).  The
clients dict is modelled as an association list from source to "client
configured". -/
def availableSourcesOf (clients : List (JobSource × Bool)) : List JobSource :=
  (clients.filter (fun p => p.2)).map (fun p => p.1)

/-- Sort key of the final sort (line 177): `job.posted_date` when present
and non-empty, `""` otherwise. -/
def sortKey (j : JobPosting) : PyStr :=
  match j.posted_date with
  | some d => if d.isEmpty then [] else d
  | none => []

/-- `results.sort(key=..., reverse=True)` (lines 176-180): a stable merge
sort, descending on the key.  On `PyStr` keys the comparison is total, so
the `except` fallback to the unsorted list is never taken. -/
def sortResultsByDate (results : List JobPosting) : List JobPosting :=
  results.mergeSort (fun a b => lexLe (sortKey b) (sortKey a))

/-- One step of the fan-in loop (lines 159-173): a completed task either
extends `results` with its processed postings or appends its source to
`failed_sources`. -/
def fanInStep (outcome : JobSource → Except PyStr SourceRaw)
    (acc : List JobPosting × List JobSource) (source : JobSource) :
    List JobPosting × List JobSource :=
  match outcome source with
  | .ok raw => (acc.1 ++ processedOf source raw, acc.2)
  | .error _ => (acc.1, acc.2 ++ [source])

/-- The message of the `ValueError` raised when no source is available
(line 145). -/
def noSourceMessage : PyStr :=
  "Aucune source demploi nest disponible. Veuillez configurer au moins une source.".toList

/-- `JobSearcherAgent.search_jobs` (lines 129-191).  `outcome source` is
what that source's task delivers (`future.result()` or the exception it
raised); `completionOrder` is the order in which `as_completed` yields the
futures — any permutation of the available sources. -/
def search_jobs (clients : List (JobSource × Bool))
    (outcome : JobSource → Except PyStr SourceRaw)
    (completionOrder : List JobSource) (query : JobSearchRequest) :
    Except PyStr JobSearchResponse :=
  let available := availableSourcesOf clients
  if available.isEmpty then
    Except.error noSourceMessage
  else
    let fanIn := completionOrder.foldl (fanInStep outcome) ([], [])
    let sorted := sortResultsByDate fanIn.1
    Except.ok
      { query := query
        results := sorted
        available_sources := available.map JobSource.value
        failed_sources := fanIn.2.map JobSource.value
        total_count := sorted.length }

/-! ## Derived descriptions of the fan-in loop -/

/-- The postings a single source task contributes to the merged list. -/
def okPostings (outcome : JobSource → Except PyStr SourceRaw) (s : JobSource) :
    List JobPosting :=
  match outcome s with
  | .ok raw => processedOf s raw
  | .error _ => []

/-- Whether a source task raised. -/
def isFailedSource (outcome : JobSource → Except PyStr SourceRaw) (s : JobSource) :
    Bool :=
  match outcome s with
  | .error _ => true
  | .ok _ => false

/-- The merged list in completion order, before sorting. -/
def mergedOf (outcome : JobSource → Except PyStr SourceRaw) :
    List JobSource → List JobPosting
  | [] => []
  | s :: rest => okPostings outcome s ++ mergedOf outcome rest

/-- The failed sources in completion order. -/
def failedOf (outcome : JobSource → Except PyStr SourceRaw)
    (order : List JobSource) : List JobSource :=
  order.filter (isFailedSource outcome)

theorem foldl_fanInStep (outcome : JobSource → Except PyStr SourceRaw) :
    ∀ (order : List JobSource) (acc : List JobPosting × List JobSource),
      order.foldl (fanInStep outcome) acc =
        (acc.1 ++ mergedOf outcome order, acc.2 ++ failedOf outcome order) := by
  intro order
  induction order with
  | nil => intro acc; simp [mergedOf, failedOf]
  | cons s rest ih =>
    intro acc
    rw [List.foldl_cons, ih]
    cases h : outcome s with
    | ok raw =>
      simp [fanInStep, h, mergedOf, okPostings, failedOf, List.filter_cons,
        isFailedSource]
    | error e =>
      simp [fanInStep, h, mergedOf, okPostings, failedOf, List.filter_cons,
        isFailedSource]

theorem search_jobs_ok_form (clients : List (JobSource × Bool))
    (outcome : JobSource → Except PyStr SourceRaw)
    (order : List JobSource) (q : JobSearchRequest)
    (h : (availableSourcesOf clients).isEmpty = false) :
    search_jobs clients outcome order q =
      Except.ok
        { query := q
          results := sortResultsByDate (mergedOf outcome order)
          available_sources := (availableSourcesOf clients).map JobSource.value
          failed_sources := (failedOf outcome order).map JobSource.value
          total_count := (sortResultsByDate (mergedOf outcome order)).length } := by
  simp only [search_jobs, h, Bool.false_eq_true, if_false, foldl_fanInStep,
    List.nil_append]

theorem mem_mergedOf {outcome : JobSource → Except PyStr SourceRaw}
    {p : JobPosting} :
    ∀ {order : List JobSource},
      p ∈ mergedOf outcome order ↔ ∃ s ∈ order, p ∈ okPostings outcome s := by
  intro order
  induction order with
  | nil => simp [mergedOf]
  | cons s rest ih => simp [mergedOf, ih]

theorem filter_eq_singleton {α : Type} (l : List α) (p : α → Bool) (f : α)
    (hnd : l.Nodup) (hf : f ∈ l) (hpf : p f = true)
    (hother : ∀ s ∈ l, s ≠ f → p s = false) :
    l.filter p = [f] := by
  induction l with
  | nil => cases hf
  | cons a rest ih =>
    rcases List.mem_cons.mp hf with rfl | hmem
    · have hrest : rest.filter p = [] := by
        apply List.filter_eq_nil_iff.mpr
        intro b hb
        have hbne : b ≠ f := by
          rintro rfl
          exact (List.nodup_cons.mp hnd).1 hb
        simp [hother b (List.mem_cons_of_mem _ hb) hbne]
      simp [List.filter_cons, hpf, hrest]
    · have hne : a ≠ f := by
        rintro rfl
        exact (List.nodup_cons.mp hnd).1 hmem
      have hpa : p a = false := hother a (List.mem_cons_self _ _) hne
      rw [List.filter_cons, if_neg (by simp [hpa])]
      exact ih (List.nodup_cons.mp hnd).2 hmem
        (fun s hs hsne => hother s (List.mem_cons_of_mem _ hs) hsne)

/-! ## C1 -/

/-- C1: when the set of available sources (configured, non-`None` clients)
is empty, `search_jobs` raises the no-source `ValueError` before dispatching
anything: the outcome is that error, and it is independent of the sources'
task outcomes and completion order — zero network calls, no partial
result. -/
theorem search_jobs_no_source_fails_fast
    (clients : List (JobSource × Bool)) (q : JobSearchRequest)
    (outcome outcome' : JobSource → Except PyStr SourceRaw)
    (order order' : List JobSource)
    (h : availableSourcesOf clients = []) :
    search_jobs clients outcome order q = Except.error noSourceMessage ∧
    search_jobs clients outcome order q = search_jobs clients outcome' order' q := by
  constructor <;> simp [search_jobs, h]

/-- Witness for C1: the registry state of the shipped configuration with no
France Travail credentials — every client `None` — fails fast. -/
theorem search_jobs_no_source_fails_fast_witness :
    availableSourcesOf
        [(JobSource.france_travail, false), (JobSource.linkedin, false),
         (JobSource.indeed, false), (JobSource.glassdoor, false)] = [] ∧
    search_jobs
        [(JobSource.france_travail, false), (JobSource.linkedin, false),
         (JobSource.indeed, false), (JobSource.glassdoor, false)]
        (fun _ => Except.error [])
        []
        { job_title := "développeur".toList, location := some "Paris".toList,
          radius := 50, keywords := [], limit_per_source := 10 } =
      Except.error noSourceMessage :=
  ⟨rfl,
   (search_jobs_no_source_fails_fast
      [(JobSource.france_travail, false), (JobSource.linkedin, false),
       (JobSource.indeed, false), (JobSource.glassdoor, false)]
      { job_title := "développeur".toList, location := some "Paris".toList,
        radius := 50, keywords := [], limit_per_source := 10 }
      (fun _ => Except.error []) (fun _ => Except.error []) [] [] rfl).1⟩

/-! ## C2 -/

/-- C2: when exactly one source's task raises and the other attempted
sources succeed (at least one other exists), `search_jobs` does not raise:
it returns a response whose `failed_sources` is exactly the failing
source's identifier and whose results all come from succeeding sources. -/
theorem search_jobs_single_failure_isolated
    (clients : List (JobSource × Bool)) (q : JobSearchRequest)
    (outcome : JobSource → Except PyStr SourceRaw)
    (order : List JobSource) (f : JobSource) (e : PyStr)
    (hord : order.Perm (availableSourcesOf clients))
    (hnd : order.Nodup)
    (hf : f ∈ order)
    (hfe : outcome f = Except.error e)
    (hok : ∀ s ∈ order, s ≠ f → ∃ raw, outcome s = Except.ok raw)
    (hother : ∃ s ∈ order, s ≠ f) :
    ∃ resp, search_jobs clients outcome order q = Except.ok resp ∧
      resp.failed_sources = [f.value] ∧
      ∀ p ∈ resp.results, ∃ s ∈ order, s ≠ f ∧
        ∃ raw, outcome s = Except.ok raw ∧ p ∈ processedOf s raw := by
  have hfa : f ∈ availableSourcesOf clients := hord.subset hf
  have hne : (availableSourcesOf clients).isEmpty = false := by
    cases hav : availableSourcesOf clients with
    | nil => rw [hav] at hfa; cases hfa
    | cons a l => simp
  refine ⟨_, search_jobs_ok_form clients outcome order q hne, ?_, ?_⟩
  · have hfiltered : failedOf outcome order = [f] := by
      apply filter_eq_singleton order (isFailedSource outcome) f hnd hf
      · simp [isFailedSource, hfe]
      · intro s hs hsne
        obtain ⟨raw, hraw⟩ := hok s hs hsne
        simp [isFailedSource, hraw]
    simp [hfiltered]
  · intro p hp
    have hmem : p ∈ mergedOf outcome order := by
      simpa [sortResultsByDate, List.mem_mergeSort] using hp
    obtain ⟨s, hs, hps⟩ := mem_mergedOf.mp hmem
    cases houts : outcome s with
    | error e' => simp [okPostings, houts] at hps
    | ok raw =>
      have hsne : s ≠ f := by
        rintro rfl
        rw [hfe] at houts
        cases houts
      exact ⟨s, hs, hsne, raw, houts, by simpa [okPostings, houts] using hps⟩

/-- A registry with France Travail and Indeed configured, used by the
concrete single-failure scenarios. -/
def twoClients : List (JobSource × Bool) :=
  [(JobSource.france_travail, true), (JobSource.indeed, true)]

/-- Task outcomes where Indeed raises and France Travail returns an empty
raw batch. -/
def twoOutcome : JobSource → Except PyStr SourceRaw := fun s =>
  match s with
  | .indeed => Except.error "Erreur transport".toList
  | _ => Except.ok (SourceRaw.ftRaw [])

/-- A concrete search request. -/
def exampleQuery : JobSearchRequest :=
  { job_title := "développeur".toList, location := some "Paris".toList,
    radius := 50, keywords := [], limit_per_source := 10 }

/-- Witness for C2: France Travail succeeds, Indeed raises; the response is
returned with `failed_sources = ["indeed"]` and only France Travail
postings. -/
theorem search_jobs_single_failure_isolated_witness :
    twoOutcome JobSource.indeed = Except.error "Erreur transport".toList ∧
    ∃ resp,
      search_jobs twoClients twoOutcome
          [JobSource.france_travail, JobSource.indeed] exampleQuery =
        Except.ok resp ∧
      resp.failed_sources = [JobSource.indeed.value] ∧
      ∀ p ∈ resp.results,
        ∃ s ∈ [JobSource.france_travail, JobSource.indeed],
          s ≠ JobSource.indeed ∧
          ∃ raw, twoOutcome s = Except.ok raw ∧ p ∈ processedOf s raw :=
  ⟨rfl,
   search_jobs_single_failure_isolated twoClients exampleQuery twoOutcome
     [JobSource.france_travail, JobSource.indeed] JobSource.indeed
     "Erreur transport".toList
     (by decide) (by decide) (by decide) rfl
     (fun s hs hsne => ⟨SourceRaw.ftRaw [], by cases s <;> simp_all [twoOutcome]⟩)
     ⟨JobSource.france_travail, by decide⟩⟩

/-! ## C3 -/

/-- Counterexample to C3: with France Travail succeeding and Indeed
failing, the returned response lists `"indeed"` in `available_sources`
(which records every attempted source, line 186) and also in
`failed_sources` — the two sets are not disjoint. -/
theorem search_jobs_sets_not_disjoint_counterexample :
    ∃ resp,
      search_jobs twoClients twoOutcome
          [JobSource.france_travail, JobSource.indeed] exampleQuery =
        Except.ok resp ∧
      "indeed".toList ∈ resp.available_sources ∧
      "indeed".toList ∈ resp.failed_sources := by
  refine ⟨_, search_jobs_ok_form twoClients twoOutcome
    [JobSource.france_travail, JobSource.indeed] exampleQuery rfl, ?_, ?_⟩
  · decide
  · decide

/-- C3 amended: `available_sources` records every attempted source (not
only the succeeding ones), and `failed_sources` is a subset of it, so the
two lists are not disjoint whenever a source fails; the succeeding sources
are `available_sources` minus `failed_sources`. -/
theorem search_jobs_failed_subset_available
    (clients : List (JobSource × Bool)) (q : JobSearchRequest)
    (outcome : JobSource → Except PyStr SourceRaw)
    (order : List JobSource) (resp : JobSearchResponse)
    (hord : order.Perm (availableSourcesOf clients))
    (hok : search_jobs clients outcome order q = Except.ok resp) :
    resp.available_sources = (availableSourcesOf clients).map JobSource.value ∧
    ∀ x ∈ resp.failed_sources, x ∈ resp.available_sources := by
  have hne : (availableSourcesOf clients).isEmpty = false := by
    cases hav : (availableSourcesOf clients).isEmpty
    · rfl
    · rw [search_jobs, if_pos (by simp [hav])] at hok
      cases hok
  rw [search_jobs_ok_form clients outcome order q hne] at hok
  cases hok
  refine ⟨rfl, ?_⟩
  intro x hx
  simp only [List.mem_map] at hx ⊢
  obtain ⟨s, hs, rfl⟩ := hx
  have hso : s ∈ order := List.mem_of_mem_filter hs
  exact ⟨s, hord.subset hso, rfl⟩

/-- Witness for C3's amended statement, at the concrete two-source
scenario. -/
theorem search_jobs_failed_subset_available_witness :
    ∃ resp,
      search_jobs twoClients twoOutcome
          [JobSource.france_travail, JobSource.indeed] exampleQuery =
        Except.ok resp ∧
      resp.available_sources = (availableSourcesOf twoClients).map JobSource.value ∧
      ∀ x ∈ resp.failed_sources, x ∈ resp.available_sources := by
  refine ⟨_, search_jobs_ok_form twoClients twoOutcome
    [JobSource.france_travail, JobSource.indeed] exampleQuery rfl, ?_⟩
  exact search_jobs_failed_subset_available twoClients exampleQuery twoOutcome
    [JobSource.france_travail, JobSource.indeed] _ (by decide)
    (search_jobs_ok_form twoClients twoOutcome
      [JobSource.france_travail, JobSource.indeed] exampleQuery rfl)

/-! ## C4 -/

theorem lexLe_nil (b : PyStr) : lexLe [] b = true := by simp [lexLe]

theorem lexLe_cons_iff (a b : Char) (as bs : PyStr) :
    lexLe (a :: as) (b :: bs) = true ↔
      a.toNat < b.toNat ∨ (a.toNat = b.toNat ∧ lexLe as bs = true) := by
  simp only [lexLe]
  by_cases h1 : a.toNat < b.toNat
  · simp [h1]
  · by_cases h2 : b.toNat < a.toNat
    · simp [h1, h2]
      omega
    · have heq : a.toNat = b.toNat := by omega
      simp [h1, h2, heq]

theorem lexLe_total : ∀ (a b : PyStr), (lexLe a b || lexLe b a) = true
  | [], _ => by simp [lexLe]
  | _ :: _, [] => by simp [lexLe]
  | a :: as, b :: bs => by
    rcases Nat.lt_trichotomy a.toNat b.toNat with h | h | h
    · simp [lexLe_cons_iff, h]
    · have := lexLe_total as bs
      rcases Bool.or_eq_true_iff.mp this with hl | hl <;>
        simp [lexLe_cons_iff, h, hl]
    · simp [lexLe_cons_iff, h]

theorem lexLe_trans :
    ∀ (a b c : PyStr), lexLe a b = true → lexLe b c = true → lexLe a c = true
  | [], _, c, _, _ => lexLe_nil c
  | _ :: _, [], _, h1, _ => by simp [lexLe] at h1
  | _ :: _, _ :: _, [], _, h2 => by simp [lexLe] at h2
  | a :: as, b :: bs, c :: cs, h1, h2 => by
    rw [lexLe_cons_iff] at h1 h2 ⊢
    rcases h1 with h1 | ⟨h1e, h1r⟩
    · rcases h2 with h2 | ⟨h2e, h2r⟩
      · exact Or.inl (by omega)
      · exact Or.inl (by omega)
    · rcases h2 with h2 | ⟨h2e, h2r⟩
      · exact Or.inl (by omega)
      · exact Or.inr ⟨by omega, lexLe_trans as bs cs h1r h2r⟩

/-- The three stub sources of the end-to-end sort scenario: France Travail
and Indeed succeed, Glassdoor raises a transport error. -/
def exClients : List (JobSource × Bool) :=
  [(JobSource.france_travail, true), (JobSource.indeed, true),
   (JobSource.glassdoor, true)]

/-- A raw France Travail record carrying only an id and a creation date. -/
def ftRawRecord (oid date : PyStr) : JVal :=
  .obj [("id".toList, .str oid), ("dateCreation".toList, .str date)]

/-- An already-normalized posting, as a non-France-Travail stub source
returns it. -/
def stubPosting (oid : PyStr) (date : Option PyStr) : JobPosting :=
  { job_id := oid, title := [], company := []
    location := { city := [], postal_code := none, region := none,
                  country := "France".toList, formatted_address := [] }
    description := [], url := [], posted_date := date
    salary_range := none, job_type := none, required_skills := []
    required_experience := none, required_education := none
    source := .indeed, raw_data := none }

/-- Task outcomes of the end-to-end sort scenario (spec §8): the four
posting dates are 2024-01-10 and 2024-03-01 from France Travail,
2024-02-15 and 2024-01-20 from Indeed. -/
def exOutcome : JobSource → Except PyStr SourceRaw := fun s =>
  match s with
  | .france_travail =>
    Except.ok (.ftRaw [ftRawRecord "ft1".toList "2024-01-10".toList,
                       ftRawRecord "ft2".toList "2024-03-01".toList])
  | .indeed =>
    Except.ok (.posts [stubPosting "in1".toList (some "2024-02-15".toList),
                       stubPosting "in2".toList (some "2024-01-20".toList)])
  | _ => Except.error "TransportError".toList

/-- Completion order of the end-to-end sort scenario. -/
def exOrder : List JobSource :=
  [JobSource.france_travail, JobSource.indeed, JobSource.glassdoor]

unseal List.merge List.mergeSort in
/-- C4: every returned result list is the merged list sorted descending by
the `posted_date` string (lexicographically; a posting with no
`posted_date` is keyed by the empty string); the sort is a permutation of
the merged postings, never dropping any.  In the concrete four-date
scenario (2024-01-10, 2024-03-01 / 2024-02-15, 2024-01-20, Glassdoor
failing) the dates come back in descending order, starting at
2024-03-01, with total count 4. -/
theorem search_jobs_results_sorted_desc
    (clients : List (JobSource × Bool)) (q : JobSearchRequest)
    (outcome : JobSource → Except PyStr SourceRaw)
    (order : List JobSource) (resp : JobSearchResponse)
    (hok : search_jobs clients outcome order q = Except.ok resp) :
    resp.results.Pairwise (fun a b => lexLe (sortKey b) (sortKey a) = true) ∧
    resp.results.Perm (mergedOf outcome order) ∧
    (∀ j : JobPosting, j.posted_date = none → sortKey j = []) ∧
    (∃ r, search_jobs exClients exOutcome exOrder exampleQuery = Except.ok r ∧
      r.results.map JobPosting.posted_date =
        [some "2024-03-01".toList, some "2024-02-15".toList,
         some "2024-01-20".toList, some "2024-01-10".toList] ∧
      r.total_count = 4 ∧
      r.failed_sources = ["glassdoor".toList]) := by
  have hne : (availableSourcesOf clients).isEmpty = false := by
    cases hav : (availableSourcesOf clients).isEmpty
    · rfl
    · rw [search_jobs, if_pos (by simp [hav])] at hok
      cases hok
  rw [search_jobs_ok_form clients outcome order q hne] at hok
  cases hok
  refine ⟨?_, ?_, ?_, ?_⟩
  · have h := @List.sorted_mergeSort JobPosting
      (fun a b : JobPosting => lexLe (sortKey b) (sortKey a))
      (fun a b c hab hbc => lexLe_trans (sortKey c) (sortKey b) (sortKey a) hbc hab)
      (fun a b => lexLe_total (sortKey b) (sortKey a))
      (mergedOf outcome order)
    simpa [sortResultsByDate] using h
  · exact List.mergeSort_perm (mergedOf outcome order) _
  · intro j hj
    simp [sortKey, hj]
  · refine ⟨_, search_jobs_ok_form exClients exOutcome exOrder exampleQuery rfl,
      ?_, ?_, ?_⟩ <;> decide

/-- Witness for C4, at the end-to-end scenario of spec §8. -/
theorem search_jobs_results_sorted_desc_witness :
    ∃ resp, search_jobs exClients exOutcome exOrder exampleQuery = Except.ok resp ∧
      resp.results.Pairwise (fun a b => lexLe (sortKey b) (sortKey a) = true) ∧
      resp.results.Perm (mergedOf exOutcome exOrder) :=
  ⟨_, search_jobs_ok_form exClients exOutcome exOrder exampleQuery rfl,
   (search_jobs_results_sorted_desc exClients exampleQuery exOutcome exOrder _
     (search_jobs_ok_form exClients exOutcome exOrder exampleQuery rfl)).1,
   (search_jobs_results_sorted_desc exClients exampleQuery exOutcome exOrder _
     (search_jobs_ok_form exClients exOutcome exOrder exampleQuery rfl)).2.1⟩

/-! ## C5 -/

/-- C5: location-to-department resolution is the pure function
`resolveDepartement` of the location string, with the claimed priority
order: "75001" (a postal code) resolves to "75", "69" (an exact two-digit
code) to "69", "Lyon" (a known city, case-insensitively) to "69", an
unknown city to the default department "75", and a postal code is found
anywhere in the string, taking priority; the resolved code is what
`ftBuildParams` places in the `departement` query parameter. -/
theorem resolve_departement_spec :
    resolveDepartement "75001".toList = "75".toList ∧
    resolveDepartement "69".toList = "69".toList ∧
    resolveDepartement "Lyon".toList = "69".toList ∧
    resolveDepartement "LYON".toList = "69".toList ∧
    resolveDepartement "unknown city".toList = "75".toList ∧
    resolveDepartement "10 rue de la République 69003 Lyon".toList = "69".toList ∧
    (ftBuildParams "développeur".toList (some "Lyon".toList) 10 [] none).departement =
      some "69".toList ∧
    (∀ loc : PyStr, loc.isEmpty = false →
      ∀ job_title limit keywords job_keywords,
        (ftBuildParams job_title (some loc) limit keywords job_keywords).departement =
          some (resolveDepartement loc)) := by
  refine ⟨by decide, by decide, by decide, by decide, by decide, by decide, by decide, ?_⟩
  intro loc hloc job_title limit keywords job_keywords
  simp [ftBuildParams, hloc]

/-- Witness for C5: the last conjunct applied at the concrete location
"Marseille". -/
theorem resolve_departement_spec_witness :
    ("Marseille".toList.isEmpty = false) ∧
    (ftBuildParams "développeur".toList (some "Marseille".toList) 10 [] none).departement =
      some (resolveDepartement "Marseille".toList) :=
  ⟨rfl,
   resolve_departement_spec.2.2.2.2.2.2.2 "Marseille".toList rfl
     "développeur".toList 10 [] none⟩

/-! ## C9 -/

/-- C9: the supplied keyword list is accepted but never reaches the query:
the France Travail search parameters — in particular `motsCles` — are
identical whatever the keyword list is. -/
theorem ft_keywords_never_in_query
    (job_title : PyStr) (location : Option PyStr) (limit : Int)
    (keywords : List PyStr) (job_keywords : Option PyStr) :
    (ftBuildParams job_title location limit keywords job_keywords).motsCles =
      (ftBuildParams job_title location limit [] job_keywords).motsCles ∧
    ftBuildParams job_title location limit keywords job_keywords =
      ftBuildParams job_title location limit [] job_keywords := by
  exact ⟨rfl, rfl⟩

/-! ## C10 -/

unseal pyReplace in
/-- C10: with no LLM-provided keywords, the query text is
`motsClesFromTitle`: the first contract-type keyword found
(case-insensitively, scanning Stage, Alternance, CDD, CDI, Intérim,
Freelance, Saisonnier in that order) is removed from the lower-cased
title, the word "technique" is removed as well, and the stripped remainder
becomes `motsCles`.  Concretely "Stage Développeur technique" queries as
"développeur", and a title containing both "CDI" and "Stage" has "Stage"
(earlier in the fixed order) removed. -/
theorem ft_title_preprocessing
    (job_title : PyStr) (location : Option PyStr) (limit : Int)
    (keywords : List PyStr) :
    (ftBuildParams job_title location limit keywords none).motsCles =
      motsClesFromTitle job_title ∧
    (∀ kw code, firstContractKeyword job_title = some (kw, code) →
      motsClesFromTitle job_title =
        pyStrip (pyReplace "technique".toList []
          (pyStrip (pyReplace (pyLower kw) [] (pyLower job_title))))) ∧
    (firstContractKeyword job_title = none →
      motsClesFromTitle job_title =
        pyStrip (pyReplace "technique".toList [] job_title)) ∧
    motsClesFromTitle "Stage Développeur technique".toList = "développeur".toList ∧
    firstContractKeyword "CDI Stage X".toList = some ("Stage".toList, "STG".toList) ∧
    motsClesFromTitle "Développeur technique".toList = "Développeur".toList := by
  refine ⟨?_, ?_, ?_, by decide, by decide, by decide⟩
  · cases location with
    | none => rfl
    | some loc => by_cases h : loc.isEmpty <;> simp [ftBuildParams, h]
  · intro kw code h
    simp [motsClesFromTitle, h]
  · intro h
    simp [motsClesFromTitle, h]

unseal pyReplace in
/-- Witness for C10: the characterization applied to the title
"Stage Développeur technique", whose detected contract keyword is
"Stage". -/
theorem ft_title_preprocessing_witness :
    firstContractKeyword "Stage Développeur technique".toList =
      some ("Stage".toList, "STG".toList) ∧
    motsClesFromTitle "Stage Développeur technique".toList =
      pyStrip (pyReplace "technique".toList []
        (pyStrip (pyReplace (pyLower "Stage".toList) []
          (pyLower "Stage Développeur technique".toList)))) :=
  ⟨by decide,
   (ft_title_preprocessing "Stage Développeur technique".toList none 10 []).2.1
     "Stage".toList "STG".toList (by decide)⟩

/-! ## C8 -/

/-- A raw record whose normalization raises: its `entreprise` field is a
string, so the nested `.get("nom", ...)` is an attribute access on a
non-dict. -/
def badFTRecord : JVal :=
  .obj [("id".toList, .str "bad1".toList),
        ("entreprise".toList, .str "ACME".toList)]

/-- A raw record with the `company` field (`entreprise.nom`) missing but
every other interesting field present. -/
def recordMissingCompany : JVal :=
  .obj [("id".toList, .str "123".toList),
        ("intitule".toList, .str "Développeur Python".toList),
        ("dateCreation".toList, .str "2024-01-01".toList),
        ("lieuTravail".toList,
          .obj [("libelle".toList, .str "Paris".toList),
                ("codePostal".toList, .str "75001".toList)]),
        ("competences".toList,
          .arr [.obj [("libelle".toList, .str "Python".toList)]])]

/-- C8: France Travail batch normalization never fails the whole batch: a
record whose normalization raises is dropped while every sibling record
(before and after it) is preserved; and a record missing its company field
is normalized — not dropped — with the placeholder "Non spécifié" as
company, its nested location and skills sub-fields extracted through
default-valued lookups. -/
theorem process_ft_batch_isolation
    (xs ys : List JVal) (bad : JVal) (e : PyStr)
    (hbad : normalizeFranceTravailJob bad = Except.error e) :
    processFranceTravailResults (xs ++ bad :: ys) =
      processFranceTravailResults xs ++ processFranceTravailResults ys ∧
    (∃ p, normalizeFranceTravailJob recordMissingCompany = Except.ok p ∧
      p.company = "Non spécifié".toList ∧
      p.location.city = "Paris".toList ∧
      p.location.postal_code = some "75001".toList ∧
      p.required_skills = ["Python".toList] ∧
      p.posted_date = some "2024-01-01".toList) ∧
    (∃ e', normalizeFranceTravailJob badFTRecord = Except.error e') := by
  refine ⟨?_, ⟨_, rfl, by decide, by decide, by decide, by decide, by decide⟩,
    ⟨_, rfl⟩⟩
  induction xs with
  | nil => simp [processFranceTravailResults, hbad]
  | cons x rest ih =>
    simp only [List.cons_append, processFranceTravailResults]
    cases normalizeFranceTravailJob x <;> simp [ih]

/-- Witness for C8: a batch holding a good record, the raising record and
the record with no company field keeps both siblings. -/
theorem process_ft_batch_isolation_witness :
    normalizeFranceTravailJob badFTRecord =
      Except.error "AttributeError: get on a non-dict value".toList ∧
    processFranceTravailResults
        [ftRawRecord "g1".toList "2024-02-02".toList, badFTRecord,
         recordMissingCompany] =
      processFranceTravailResults [ftRawRecord "g1".toList "2024-02-02".toList] ++
        processFranceTravailResults [recordMissingCompany] :=
  ⟨rfl,
   (process_ft_batch_isolation [ftRawRecord "g1".toList "2024-02-02".toList]
     [recordMissingCompany] badFTRecord
     "AttributeError: get on a non-dict value".toList rfl).1⟩

/-! ## C6 -/

theorem getAuthToken_calls_le_one (cfg : FTConfig) (cached : Option PyStr)
    (v : Bool) (tok : Option PyStr) :
    (getAuthToken cfg cached v tok).2.2 ≤ 1 := by
  rcases cfg with ⟨cid, cs, ak⟩
  cases ak <;> cases cid <;> cases cs <;> cases cached <;> cases v <;> cases tok <;>
    simp [getAuthToken, getAccessToken]

theorem getAuthToken_oauth_refresh (cfg : FTConfig) (tok : Option PyStr)
    (hapi : cfg.api_key = none) (hcid : cfg.client_id.isSome = true)
    (hcs : cfg.client_secret.isSome = true) :
    getAuthToken cfg none false tok = (tok, tok, 1) := by
  rcases cfg with ⟨cid, cs, ak⟩
  cases ak <;> cases cid <;> cases cs <;> cases tok <;>
    simp_all [getAuthToken, getAccessToken]

theorem getAuthToken_oauth_sets_cache (cfg : FTConfig) (cached : Option PyStr)
    (v : Bool) (tok : Option PyStr) (hapi : cfg.api_key = none) :
    (getAuthToken cfg cached v tok).2.1 = (getAuthToken cfg cached v tok).1 ∨
    (getAuthToken cfg cached v tok).1 = none := by
  rcases cfg with ⟨cid, cs, ak⟩
  cases hapi
  cases cid <;> cases cs <;> cases cached <;> cases v <;> cases tok <;>
    simp [getAuthToken, getAccessToken]

/-- C6 amended: within one France Travail search call there is never a
second token refresh nor a second retry (at most one of each); and when the
client is in OAuth mode (no static API key, both refresh credentials
present — so the bearer in use is a cached OAuth token) a 401 on the first
request triggers exactly one token refresh, followed by exactly one retry
when the refresh yields a token (failing terminally when that retry is not
a success), and by no retry and a terminal error when the refresh yields
none.  With a static API key the 401 is terminal: no refresh happens even
though refresh credentials may be present (see the counterexample). -/
theorem ft_auth_one_refresh_one_retry
    (cfg : FTConfig) (cached : Option PyStr) (cachedValid : Bool)
    (tokInit tokRefresh : Option PyStr) (status1 status2 : Nat) :
    (ftSearchFlow cfg cached cachedValid tokInit tokRefresh status1 status2).refreshTokenCalls ≤ 1 ∧
    (ftSearchFlow cfg cached cachedValid tokInit tokRefresh status1 status2).httpGets ≤ 2 ∧
    (cfg.api_key = none →
      cfg.client_id.isSome = true →
      cfg.client_secret.isSome = true →
      (getAuthToken cfg cached cachedValid tokInit).1.isSome = true →
      status1 = 401 →
      (ftSearchFlow cfg cached cachedValid tokInit tokRefresh status1 status2).refreshTokenCalls = 1 ∧
      (tokRefresh.isSome = true →
        (ftSearchFlow cfg cached cachedValid tokInit tokRefresh status1 status2).httpGets = 2 ∧
        (¬(status2 = 200 ∨ status2 = 206) →
          ∃ e, (ftSearchFlow cfg cached cachedValid tokInit tokRefresh status1 status2).result =
            Except.error e)) ∧
      (tokRefresh = none →
        (ftSearchFlow cfg cached cachedValid tokInit tokRefresh status1 status2).httpGets = 1 ∧
        ∃ e, (ftSearchFlow cfg cached cachedValid tokInit tokRefresh status1 status2).result =
          Except.error e)) := by
  rcases hga : getAuthToken cfg cached cachedValid tokInit with ⟨auth, cached1, n1⟩
  cases auth with
  | none =>
    simp only [ftSearchFlow, hga]
    refine ⟨by simp, by simp, ?_⟩
    intro _ _ _ hauth _
    simp at hauth
  | some t =>
    simp only [ftSearchFlow, hga]
    by_cases h401 : status1 = 401
    · rw [if_pos h401]
      by_cases hguard :
          (cfg.client_id.isSome && cfg.client_secret.isSome && cached1.isSome) = true
      · rw [if_pos hguard]
        rcases hga2 : getAuthToken cfg none false tokRefresh with ⟨auth2, c2, n2⟩
        have hn2 : n2 ≤ 1 := by
          have h := getAuthToken_calls_le_one cfg none false tokRefresh
          rw [hga2] at h
          exact h
        cases auth2 with
        | some t2 =>
          refine ⟨?_, ?_, ?_⟩
          · by_cases hs2 : status2 = 200 ∨ status2 = 206 <;> simp [hs2, hn2]
          · by_cases hs2 : status2 = 200 ∨ status2 = 206 <;> simp [hs2]
          · intro hapi hcid hcs hauth h401'
            have hoauth := getAuthToken_oauth_refresh cfg tokRefresh hapi hcid hcs
            rw [hga2] at hoauth
            have htok : tokRefresh = some t2 := (congrArg Prod.fst hoauth).symm
            have hn2e : n2 = 1 := by
              have h := congrArg (fun p => p.2.2) hoauth
              simpa using h
            refine ⟨?_, ?_, ?_⟩
            · by_cases hs2 : status2 = 200 ∨ status2 = 206 <;> simp [hs2, hn2e]
            · intro _
              constructor
              · by_cases hs2 : status2 = 200 ∨ status2 = 206 <;> simp [hs2]
              · intro hs2
                exact ⟨"Erreur dauthentification avec lAPI France Travail: Clé API invalide (code 401)".toList,
                  by simp [hs2]⟩
            · intro hnone
              rw [hnone] at htok
              cases htok
        | none =>
          refine ⟨by simp [hn2], by simp, ?_⟩
          intro hapi hcid hcs hauth h401'
          have hoauth := getAuthToken_oauth_refresh cfg tokRefresh hapi hcid hcs
          rw [hga2] at hoauth
          have htok : tokRefresh = none := (congrArg Prod.fst hoauth).symm
          have hn2e : n2 = 1 := by
            have h := congrArg (fun p => p.2.2) hoauth
            simpa using h
          refine ⟨by simp [hn2e], ?_, ?_⟩
          · intro hsome
            rw [htok] at hsome
            simp at hsome
          · intro _
            exact ⟨rfl, _, rfl⟩
      · rw [if_neg hguard]
        refine ⟨by simp, by simp, ?_⟩
        intro hapi hcid hcs hauth h401'
        have hcache := getAuthToken_oauth_sets_cache cfg cached cachedValid tokInit hapi
        rw [hga] at hcache
        rcases hcache with hcache | hcache
        · have hc : cached1 = some t := hcache
          rw [hcid, hcs, hc] at hguard
          simp at hguard
        · cases hcache
    · rw [if_neg h401]
      by_cases hs1 : status1 = 200 ∨ status1 = 206
      · rw [if_pos hs1]
        exact ⟨by simp, by simp, fun _ _ _ _ h401' => absurd h401' h401⟩
      · rw [if_neg hs1]
        exact ⟨by simp, by simp, fun _ _ _ _ h401' => absurd h401' h401⟩

/-- A client configured with a static API key and both OAuth refresh
credentials. -/
def apiKeyConfig : FTConfig :=
  { client_id := some "cid".toList
    client_secret := some "clientsecret".toList
    api_key := some "apikey".toList }

/-- Counterexample to C6 as stated: with refresh credentials present but a
static API key in use, a 401 on the first request performs zero token
refreshes and zero retries — the call fails terminally at once, because the
refresh guard also requires a cached OAuth `access_token`, which an
API-key client never has. -/
theorem ft_refresh_skipped_despite_credentials_counterexample :
    apiKeyConfig.client_id.isSome = true ∧
    apiKeyConfig.client_secret.isSome = true ∧
    (ftSearchFlow apiKeyConfig none false none (some "tok".toList) 401 200).refreshTokenCalls = 0 ∧
    (ftSearchFlow apiKeyConfig none false none (some "tok".toList) 401 200).httpGets = 1 ∧
    (ftSearchFlow apiKeyConfig none false none (some "tok".toList) 401 200).result =
      Except.error "Erreur dauthentification avec lAPI France Travail: Clé API invalide (code 401)".toList :=
  ⟨rfl, rfl, rfl, rfl, rfl⟩

/-- A pure-OAuth client configuration (no static API key). -/
def oauthConfig : FTConfig :=
  { client_id := some "cid".toList
    client_secret := some "clientsecret".toList
    api_key := none }

/-- Witness for C6's amended statement: in OAuth mode a 401 followed by a
successful refresh and a failing (500) retry gives exactly one refresh,
exactly two GETs, and a terminal error. -/
theorem ft_auth_one_refresh_one_retry_witness :
    (getAuthToken oauthConfig none false (some "t0".toList)).1.isSome = true ∧
    (ftSearchFlow oauthConfig none false (some "t0".toList) (some "t1".toList) 401 500).refreshTokenCalls = 1 ∧
    (ftSearchFlow oauthConfig none false (some "t0".toList) (some "t1".toList) 401 500).httpGets = 2 ∧
    ∃ e, (ftSearchFlow oauthConfig none false (some "t0".toList) (some "t1".toList) 401 500).result =
      Except.error e := by
  have h := (ft_auth_one_refresh_one_retry oauthConfig none false
    (some "t0".toList) (some "t1".toList) 401 500).2.2
    rfl rfl rfl rfl rfl
  exact ⟨rfl, h.1, (h.2.1 rfl).1, (h.2.1 rfl).2 (by decide)⟩

/-! ## C7 -/

/-- Counterexample to C7 as stated: a 206 (Partial Content) search response
makes the Indeed client and the Glassdoor client raise — only the France
Travail client treats 206 as success. -/
theorem indeed_glassdoor_206_fail_counterexample :
    (∃ e, indeedSearchJobs "2024-05-01".toList 206
        (.obj [("results".toList, .arr [])]) = Except.error e) ∧
    (∃ e, glassdoorSearchJobs "2024-05-01".toList 206 (.obj []) = Except.error e) :=
  ⟨⟨_, rfl⟩, ⟨_, rfl⟩⟩

/-- C7 amended: the France Travail client treats both 200 and 206 as
success and any other (non-refresh-path) final status as failure, while
the Indeed and Glassdoor clients treat only 200 as success and fail on
every other status — including 206. -/
theorem http_status_policy
    (cfg : FTConfig) (cached : Option PyStr) (cachedValid : Bool)
    (tokInit tokRefresh : Option PyStr) (status1 status2 : Nat)
    (today : PyStr) (body : JVal) (status : Nat) :
    ((getAuthToken cfg cached cachedValid tokInit).1.isSome = true →
      (status1 = 200 ∨ status1 = 206) →
      (ftSearchFlow cfg cached cachedValid tokInit tokRefresh status1 status2).result =
        Except.ok ()) ∧
    ((getAuthToken cfg cached cachedValid tokInit).1.isSome = true →
      status1 ≠ 200 → status1 ≠ 206 → status1 ≠ 401 →
      ∃ e, (ftSearchFlow cfg cached cachedValid tokInit tokRefresh status1 status2).result =
        Except.error e) ∧
    (status ≠ 200 → ∃ e, indeedSearchJobs today status body = Except.error e) ∧
    (status ≠ 200 → ∃ e, glassdoorSearchJobs today status body = Except.error e) ∧
    indeedSearchJobs today 200 (.obj [("results".toList, .arr [])]) = Except.ok [] ∧
    glassdoorSearchJobs today 200
        (.obj [("response".toList, .obj [("jobListings".toList, .arr [])])]) =
      Except.ok [] := by
  rcases hga : getAuthToken cfg cached cachedValid tokInit with ⟨auth, cached1, n1⟩
  refine ⟨?_, ?_, ?_, ?_, rfl, rfl⟩
  · intro hauth hs1
    cases auth with
    | none => simp at hauth
    | some t =>
      have h401 : status1 ≠ 401 := by
        rcases hs1 with h | h <;> omega
      simp only [ftSearchFlow, hga]
      rw [if_neg h401, if_pos hs1]
  · intro hauth h200 h206 h401
    cases auth with
    | none => simp at hauth
    | some t =>
      simp only [ftSearchFlow, hga]
      rw [if_neg h401, if_neg (by simp [h200, h206])]
      exact ⟨_, rfl⟩
  · intro hstatus
    refine ⟨"Erreur lors de la recherche sur Indeed: ".toList ++ natToPyStr status, ?_⟩
    simp only [indeedSearchJobs, if_pos hstatus]
    rfl
  · intro hstatus
    refine ⟨"Erreur lors de la recherche sur Glassdoor: ".toList ++ natToPyStr status, ?_⟩
    simp only [glassdoorSearchJobs, if_pos hstatus]
    rfl

/-- Witness for C7's amended statement: France Travail succeeds on a 206
first response; Indeed and Glassdoor fail on a 500. -/
theorem http_status_policy_witness :
    (getAuthToken oauthConfig none false (some "t0".toList)).1.isSome = true ∧
    (ftSearchFlow oauthConfig none false (some "t0".toList) none 206 0).result =
      Except.ok () ∧
    (∃ e, indeedSearchJobs "2024-05-01".toList 500 (.obj []) = Except.error e) ∧
    (∃ e, glassdoorSearchJobs "2024-05-01".toList 500 (.obj []) = Except.error e) := by
  have h := http_status_policy oauthConfig none false (some "t0".toList) none 206 0
    "2024-05-01".toList (.obj []) 500
  exact ⟨rfl, h.1 rfl (Or.inr rfl), h.2.2.1 (by omega), h.2.2.2.1 (by omega)⟩

end Jobify
